import Mathlib

/-!
Verification development for the single-file Flask demo application
`MoreFindings.py` (repository MVP-DevSecOps-Demo/sample-app).

The application is shallowly embedded:

* the `users` table is a list of `UserRow`s (table order = rowid order);
* the string interpolation of the `/login` handler is `buildQuery`;
* the call `sqlite3 … .execute(query); .fetchone()` is `execQuery`, built on a
  model of the SQLite lexer/parser/evaluator restricted to the statement shape
  the handler can ever produce (`SELECT * FROM users WHERE <boolean expr>` with
  equality atoms, `AND`/`OR`, single-quoted strings with `''` escapes,
  `--` line comments, and SQLite's comparison affinity rules, including the
  conversion of numeric-looking text — integer and real literals alike — with
  exact IEEE-754 binary64 rounding);
* external effects (the shell in `/ping`, the filesystem in `/readfile`,
  `base64.b64decode`/`pickle.loads` in `/deserialize`) are abstract
  value-returning functions passed to the handlers;
* a raised exception that no handler catches is the Flask debug 500 page.
-/

namespace MoreFindings

/-- A stored row of the `users` table:
`(id INTEGER PRIMARY KEY, username TEXT, password TEXT)`. -/
structure UserRow where
  id : Int
  username : String
  password : String
deriving DecidableEq

/-- A column of a SQLite table as declared in its `CREATE TABLE` statement. -/
structure TableColumn where
  colName : String
  colType : String
  primaryKey : Bool
deriving DecidableEq

/-- A table of the SQLite schema: its name and declared columns. -/
structure SchemaTable where
  tblName : String
  cols : List TableColumn
deriving DecidableEq

/-- The columns declared by `init_db`'s CREATE TABLE statement. -/
def usersColumns : List TableColumn :=
  [⟨"id", "INTEGER", true⟩, ⟨"username", "TEXT", false⟩, ⟨"password", "TEXT", false⟩]

/-- `init_db`: executes
`CREATE TABLE IF NOT EXISTS users (id INTEGER PRIMARY KEY, username TEXT, password TEXT)`
against the schema: a no-op when a table named `users` already exists
(whatever its columns — SQLite does not compare schemas), otherwise the
table is added. -/
def init_db (s : List SchemaTable) : List SchemaTable :=
  if s.any (fun t => t.tblName == "users") then s else s ++ [⟨"users", usersColumns⟩]

/-! ### SQLite lexer

A state machine over the character list, modelling the SQLite tokenizer on the
fragment reachable from the handler's query template: identifiers/keywords,
single-quoted strings with `''` escapes, `--` line comments, numbers, `=`, `*`
and whitespace.  Any other character yields the error token `Tok.bad`, which
the parser turns into a syntax error (as SQLite's prepare step would). -/

/-- A SQLite token. -/
inductive Tok where
  | ident (s : String)
  | str (s : String)
  | num (n : Nat)
  | eq
  | star
  | kwAnd
  | kwOr
  | bad
deriving DecidableEq

/-- Lexer state: at top level, after one `-`, inside a `--` comment, inside a
string literal, after the closing quote of a string literal (to resolve the
`''` escape), inside a word, inside a number. -/
inductive Mode where
  | top
  | dash
  | comment
  | instr (acc : List Char)
  | strend (acc : List Char)
  | inword (acc : List Char)
  | innum (acc : List Char)

/-- Is `c` a character that may start an identifier? -/
def isWordStart (c : Char) : Bool :=
  c.isAlpha || c == '_'

/-- Is `c` a character that may continue an identifier? -/
def isWordChar (c : Char) : Bool :=
  c.isAlpha || c.isDigit || c == '_'

/-- Decimal value of a digit list. -/
def digitsVal (l : List Char) : Nat :=
  l.foldl (fun n c => n * 10 + (c.toNat - 48)) 0

/-- Turn a completed word into a token: the keywords `AND` and `OR` are
recognised case-insensitively, everything else is an identifier. -/
def mkWord (acc : List Char) : Tok :=
  if acc.map Char.toUpper = "AND".data then Tok.kwAnd
  else if acc.map Char.toUpper = "OR".data then Tok.kwOr
  else Tok.ident (String.mk acc)

/-- Top-level transition of the lexer on one character: the tokens it emits and
the successor state, or `none` for a character SQLite's tokenizer rejects. -/
def classify (c : Char) : Option (List Tok × Mode) :=
  if c == ' ' || c == '\n' || c == '\t' || c == '\r' then some ([], Mode.top)
  else if c == '\'' then some ([], Mode.instr [])
  else if c == '-' then some ([], Mode.dash)
  else if c == '=' then some ([Tok.eq], Mode.top)
  else if c == '*' then some ([Tok.star], Mode.top)
  else if isWordStart c then some ([], Mode.inword [c])
  else if c.isDigit then some ([], Mode.innum [c])
  else none

/-- One lexer step out of a completed token boundary. -/
def boundary (c : Char) (cont : Mode → List Tok) : List Tok :=
  match classify c with
  | some (ts, m) => ts ++ cont m
  | none => [Tok.bad]

/-- The lexer: runs the state machine over the character list.  `Tok.bad`
marks a lexical error (unterminated string, rejected character). -/
def run : Mode → List Char → List Tok
  | Mode.top, [] => []
  | Mode.top, c :: cs => boundary c (fun m => run m cs)
  | Mode.dash, [] => [Tok.bad]
  | Mode.dash, c :: cs => if c == '-' then run Mode.comment cs else [Tok.bad]
  | Mode.comment, [] => []
  | Mode.comment, c :: cs => if c == '\n' then run Mode.top cs else run Mode.comment cs
  | Mode.instr _, [] => [Tok.bad]
  | Mode.instr acc, c :: cs =>
      if c == '\'' then run (Mode.strend acc) cs else run (Mode.instr (acc ++ [c])) cs
  | Mode.strend acc, [] => [Tok.str (String.mk acc)]
  | Mode.strend acc, c :: cs =>
      if c == '\'' then run (Mode.instr (acc ++ ['\''])) cs
      else Tok.str (String.mk acc) :: boundary c (fun m => run m cs)
  | Mode.inword acc, [] => [mkWord acc]
  | Mode.inword acc, c :: cs =>
      if isWordChar c then run (Mode.inword (acc ++ [c])) cs
      else mkWord acc :: boundary c (fun m => run m cs)
  | Mode.innum acc, [] => [Tok.num (digitsVal acc)]
  | Mode.innum acc, c :: cs =>
      if c.isDigit then run (Mode.innum (acc ++ [c])) cs
      else Tok.num (digitsVal acc) :: boundary c (fun m => run m cs)

/-- Tokenize a SQL string. -/
def tokenize (q : String) : List Tok :=
  run Mode.top q.data

/-! ### SQL parser and evaluator -/

/-- Columns of the `users` table. -/
inductive Col where
  | cid
  | cusername
  | cpassword
deriving DecidableEq

/-- The exact value of a finite IEEE-754 binary64 number, in canonical
dyadic form `n * 2 ^ t` with `n` odd, or `⟨0, 0⟩` for zero. -/
structure Dyadic where
  n : Int
  t : Int
deriving DecidableEq

/-- A SQLite value.  Besides the integers and text that the lexer can
produce, evaluation needs the REAL storage class: SQLite's NUMERIC-affinity
conversion turns numeric-looking text such as `'1.0'` or `'2e3'` into an
IEEE-754 binary64 number.  A finite double has an exact dyadic value, so
REALs are carried as that value (`vreal`), with the two infinities apart
(`vinf`); NaN cannot arise from a numeric-looking text. -/
inductive Val where
  | vint (i : Int)
  | vreal (d : Dyadic)
  | vinf (neg : Bool)
  | vstr (s : String)
deriving DecidableEq

/-- A term of a comparison: a column reference or a literal. -/
inductive Term where
  | col (c : Col)
  | lit (v : Val)
deriving DecidableEq

/-- The boolean expression of the WHERE clause. -/
inductive Cond where
  | eqc (a b : Term)
  | andc (a b : Cond)
  | orc (a b : Cond)
deriving DecidableEq

/-- Resolve a single token to a term; column names are matched
case-insensitively against the schema of `users`. -/
def tokTerm : Tok → Except String Term
  | Tok.ident s =>
      if s.data.map Char.toLower = "id".data then Except.ok (Term.col Col.cid)
      else if s.data.map Char.toLower = "username".data then Except.ok (Term.col Col.cusername)
      else if s.data.map Char.toLower = "password".data then Except.ok (Term.col Col.cpassword)
      else Except.error "no such column"
  | Tok.str s => Except.ok (Term.lit (Val.vstr s))
  | Tok.num n => Except.ok (Term.lit (Val.vint (Int.ofNat n)))
  | _ => Except.error "syntax error"

/-- Build an equality atom from the two term tokens. -/
def mkEq (t1 t2 : Tok) : Except String Cond :=
  match tokTerm t1 with
  | Except.error e => Except.error e
  | Except.ok a =>
      match tokTerm t2 with
      | Except.error e => Except.error e
      | Except.ok b => Except.ok (Cond.eqc a b)

/-- Attach the AND-group accumulated so far to the OR-chain accumulated so
far. -/
def orJoin : Option Cond → Cond → Cond
  | none, c => c
  | some o, c => Cond.orc o c

/-- Parse the `(AND atom | OR atom)*` tail of the WHERE clause.  `pending` is
the OR-chain already closed, `cur` the AND-group currently open; `AND` binds
tighter than `OR`, as in SQLite. -/
def parseTail (pending : Option Cond) (cur : Cond) : List Tok → Except String Cond
  | [] => Except.ok (orJoin pending cur)
  | Tok.kwAnd :: t1 :: Tok.eq :: t2 :: ts =>
      match mkEq t1 t2 with
      | Except.ok a => parseTail pending (Cond.andc cur a) ts
      | Except.error e => Except.error e
  | Tok.kwOr :: t1 :: Tok.eq :: t2 :: ts =>
      match mkEq t1 t2 with
      | Except.ok a => parseTail (some (orJoin pending cur)) a ts
      | Except.error e => Except.error e
  | _ => Except.error "syntax error"

/-- Parse a WHERE clause (token form): `atom ((AND|OR) atom)*` with
`atom := term = term`. -/
def parseWhereToks : List Tok → Except String Cond
  | t1 :: Tok.eq :: t2 :: ts =>
      match mkEq t1 t2 with
      | Except.ok a => parseTail none a ts
      | Except.error e => Except.error e
  | _ => Except.error "syntax error"

/-- Parse (SQLite "prepare") a statement of the only shape the application
ever submits: `SELECT * FROM users WHERE <cond>`.  Keywords are matched
case-insensitively; anything else is a syntax error. -/
def parseQuery (q : String) : Except String Cond :=
  match tokenize q with
  | Tok.ident s1 :: Tok.star :: Tok.ident s2 :: Tok.ident s3 :: Tok.ident s4 :: ts =>
      if s1.data.map Char.toUpper = "SELECT".data
          ∧ s2.data.map Char.toUpper = "FROM".data
          ∧ s3.data.map Char.toLower = "users".data
          ∧ s4.data.map Char.toUpper = "WHERE".data then
        parseWhereToks ts
      else Except.error "syntax error"
  | _ => Except.error "syntax error"

/-- Value of a term at a row. -/
def evalTerm (r : UserRow) : Term → Val
  | Term.col Col.cid => Val.vint r.id
  | Term.col Col.cusername => Val.vstr r.username
  | Term.col Col.cpassword => Val.vstr r.password
  | Term.lit v => v

/-- SQLite comparison affinity of a term: `id` has INTEGER affinity, the two
text columns TEXT affinity, literals none. -/
inductive Aff where
  | numeric
  | text
  | noaff
deriving DecidableEq

/-- Affinity of a term. -/
def affOf : Term → Aff
  | Term.col Col.cid => Aff.numeric
  | Term.col _ => Aff.text
  | Term.lit _ => Aff.noaff

/-! #### Text-to-number conversion of NUMERIC affinity

Model of `applyNumericAffinity`: a text operand is converted before the
comparison iff `sqlite3AtoF` accepts it whole — optional surrounding
whitespace, optional sign, decimal digits with an optional point, optional
`e`/`E` exponent, at least one mantissa digit.  Integer-shaped text within
the 64-bit range converts exactly (the `sqlite3Atoi64` path of `alsoAnInt`);
everything else becomes the IEEE-754 binary64 double nearest its exact
decimal value (round to nearest, ties to even), computed exactly with
integer arithmetic.  Since comparison of INTEGER with REAL storage is exact
in SQLite (`sqlite3IntFloatCompare`), carrying the double's exact dyadic
value is faithful. -/

/-- `sqlite3Isspace`: the six ASCII whitespace characters. -/
def isSqlSpace (c : Char) : Bool :=
  c == ' ' || c == '\t' || c == '\n' || c == '\x0b' || c == '\x0c' || c == '\r'

/-- Drop leading SQL whitespace. -/
def skipSpaces : List Char → List Char
  | [] => []
  | c :: cs => if isSqlSpace c then skipSpaces cs else c :: cs

/-- Split off a leading run of decimal digits. -/
def takeDigits : List Char → List Char × List Char
  | [] => ([], [])
  | c :: cs =>
      if c.isDigit then
        let (ds, r) := takeDigits cs
        (c :: ds, r)
      else ([], c :: cs)

/-- The shape of a text accepted by `sqlite3AtoF`: its exact value is
`mant * 10 ^ exp10`; `intForm` records that it had neither a decimal point
nor an exponent (the `sqlite3Atoi64` form). -/
structure NumShape where
  mant : Int
  exp10 : Int
  intForm : Bool

/-- Parse a text as `sqlite3AtoF` does, or `none` when the text does not
look like a number (then no conversion happens and it stays text). -/
def parseNumText (s : String) : Option NumShape :=
  let cs := skipSpaces s.data
  let (neg, cs) := match cs with
    | '-' :: r => (true, r)
    | '+' :: r => (false, r)
    | r => (false, r)
  let (ip, cs) := takeDigits cs
  let (fp, hadDot, cs) := match cs with
    | '.' :: r =>
        let (d, r2) := takeDigits r
        (d, true, r2)
    | r => (([] : List Char), false, r)
  if ip.length + fp.length = 0 then none
  else
    let (hadExp, expOk, eneg, eds, cs) := match cs with
      | 'e' :: r | 'E' :: r =>
          match r with
          | '-' :: r2 =>
              let (d, r3) := takeDigits r2
              (true, !d.isEmpty, true, d, r3)
          | '+' :: r2 =>
              let (d, r3) := takeDigits r2
              (true, !d.isEmpty, false, d, r3)
          | r2 =>
              let (d, r3) := takeDigits r2
              (true, !d.isEmpty, false, d, r3)
      | r => (false, true, false, ([] : List Char), r)
    if hadExp && !expOk then none
    else if skipSpaces cs ≠ [] then none
    else
      let m : Int := Int.ofNat (digitsVal (ip ++ fp))
      some ⟨if neg then -m else m,
            (if eneg then -(Int.ofNat (digitsVal eds)) else Int.ofNat (digitsVal eds))
              - Int.ofNat fp.length,
            !hadDot && !hadExp⟩

/-- Move the factors of two of `n` into the exponent, producing the
canonical dyadic form (the fuel bounds the halvings; rounded significands
have at most 54 bits, so 64 always suffices). -/
def normDyadic : Nat → Int → Int → Dyadic
  | 0, n, t => ⟨n, t⟩
  | f + 1, n, t =>
      if n = 0 then ⟨0, 0⟩
      else if n % 2 = 0 then normDyadic f (n / 2) (t + 1)
      else ⟨n, t⟩

/-- The outcome of rounding to binary64: a finite double (its exact dyadic
value) or an infinity. -/
inductive Rounded where
  | fin (d : Dyadic)
  | inf (neg : Bool)

/-- Upward binary-logarithm search on `num / den` with `den ≤ num`: the `k`
with `2 ^ k ≤ num / den < 2 ^ (k + 1)`. -/
def log2Up : Nat → Nat → Nat → Int → Int
  | 0, _, _, k => k
  | f + 1, num, den, k => if num < 2 * den then k else log2Up f num (2 * den) (k + 1)

/-- Downward binary-logarithm search, for `num / den < 1`. -/
def log2Down : Nat → Nat → Nat → Int → Int
  | 0, _, _, k => k
  | f + 1, num, den, k => if den ≤ num then k else log2Down f (2 * num) den (k - 1)

/-- `⌊log₂ (num / den)⌋` for positive fractions in the range relevant to
binary64 rounding (the fuel covers every exponent down to the subnormal
cutoff). -/
def log2floorND (num den : Nat) : Int :=
  if den ≤ num then log2Up 1100 num den 0 else log2Down 1200 (2 * num) den (-1)

/-- Round the nonnegative fraction `num / den` to an integer, half to
even. -/
def roundHalfEvenND (num den : Nat) : Nat :=
  let q := num / den
  let r := num % den
  if 2 * r < den then q
  else if den < 2 * r then q + 1
  else if q % 2 = 0 then q else q + 1

/-- Round the nonnegative fraction `num0 / den0` to the nearest binary64
magnitude `n * 2 ^ t` (ties to even), handling subnormals (`t = -1074`) and
overflow to infinity (`none`). -/
def roundMag (num0 den0 : Nat) : Option (Nat × Int) :=
  if den0 * 2 ^ 1024 ≤ num0 then none
  else
    let t : Int := if num0 * 2 ^ 1022 < den0 then -1074 else log2floorND num0 den0 - 52
    let n := roundHalfEvenND (num0 * 2 ^ (-t).toNat) (den0 * 2 ^ t.toNat)
    if 2 ^ (1024 - t).toNat ≤ n then none else some (n, t)

/-- Round the exact decimal value `m * 10 ^ e10` to binary64.  A decimal
exponent above 400 overflows outright (the mantissa is a nonzero integer, so
the value exceeds the largest double, below `2 ^ 1024 < 10 ^ 309`). -/
def roundDouble (m : Int) (e10 : Int) : Rounded :=
  if 400 < e10 then Rounded.inf (decide (m < 0))
  else
    match roundMag (m.natAbs * 10 ^ e10.toNat) (10 ^ (-e10).toNat) with
    | none => Rounded.inf (decide (m < 0))
    | some (n, t) =>
        Rounded.fin (normDyadic 64 (if m < 0 then -(n : Int) else (n : Int)) t)

/-- The value `applyNumericAffinity` gives a text operand: `none` when the
text does not look like a number (it stays text); an exact 64-bit integer
for integer-shaped text in range; otherwise the binary64 double of its
decimal value. -/
def textToNum (s : String) : Option Val :=
  match parseNumText s with
  | none => none
  | some n =>
      if n.intForm ∧ -(2 ^ 63 : Int) ≤ n.mant ∧ n.mant < (2 ^ 63 : Int) then
        some (Val.vint n.mant)
      else
        match roundDouble n.mant n.exp10 with
        | Rounded.fin d => some (Val.vreal d)
        | Rounded.inf b => some (Val.vinf b)

/-- Apply NUMERIC affinity to a value: text that looks like a number is
converted, everything else is unchanged. -/
def numify : Val → Val
  | Val.vstr s => match textToNum s with
      | some v => v
      | none => Val.vstr s
  | v => v

/-- Apply TEXT affinity to a value. -/
def textify : Val → Val
  | Val.vint i => Val.vstr (toString i)
  | v => v

/-- Does the integer `i` equal the dyadic `n * 2 ^ t`?  In canonical form a
negative exponent means a non-integral value, never equal to an integer. -/
def intEqDyadic (i : Int) (d : Dyadic) : Bool :=
  if 0 ≤ d.t then i == d.n * ((2 ^ d.t.toNat : Nat) : Int) else false

/-- Equality of two storage values.  INTEGER and REAL compare numerically
and exactly (`sqlite3IntFloatCompare`); numeric never equals text (numbers
sort before text); an infinity never equals a finite number. -/
def valEq : Val → Val → Bool
  | Val.vint i, Val.vint j => i == j
  | Val.vint i, Val.vreal d => intEqDyadic i d
  | Val.vreal d, Val.vint i => intEqDyadic i d
  | Val.vreal d, Val.vreal e => d == e
  | Val.vinf a, Val.vinf b => a == b
  | Val.vstr s, Val.vstr t => s == t
  | _, _ => false

/-- SQLite `=` between two terms at a row, after applying the comparison
affinity rules: NUMERIC affinity on one side converts a numeric-looking
operand of the other side to a number (integer or binary64 real), otherwise
a TEXT-affinity column converts a no-affinity operand to text. -/
def evalEq (r : UserRow) (t1 t2 : Term) : Bool :=
  let v1 := evalTerm r t1
  let v2 := evalTerm r t2
  match affOf t1, affOf t2 with
  | Aff.numeric, Aff.numeric => valEq v1 v2
  | Aff.numeric, _ => valEq v1 (numify v2)
  | _, Aff.numeric => valEq (numify v1) v2
  | Aff.text, Aff.noaff => valEq v1 (textify v2)
  | Aff.noaff, Aff.text => valEq (textify v1) v2
  | _, _ => valEq v1 v2

/-- Truth value of a WHERE condition at a row. -/
def evalCond (r : UserRow) : Cond → Bool
  | Cond.eqc a b => evalEq r a b
  | Cond.andc a b => evalCond r a && evalCond r b
  | Cond.orc a b => evalCond r a || evalCond r b

/-- `cursor.fetchone()` after a SELECT: the first row of the result set in
table order, or none. -/
def firstWhere (p : UserRow → Bool) : List UserRow → Option UserRow
  | [] => none
  | r :: rs => if p r then some r else firstWhere p rs

/-- `c.execute(q); c.fetchone()` for the statement shapes the application can
produce: prepare the statement (a failure is the raised `sqlite3` error),
then return the first matching row or none. -/
def execQuery (rows : List UserRow) (q : String) : Except String (Option UserRow) :=
  match parseQuery q with
  | Except.error e => Except.error e
  | Except.ok c => Except.ok (firstWhere (fun r => evalCond r c) rows)

/-! ### The HTTP handlers -/

/-- Rendering of a Python value in an f-string: `request.form.get` returns
`None` for an absent field, and `f"{None}"` is the text `None`. -/
def pyStr : Option String → String
  | none => "None"
  | some s => s

/-- The query text built by the `/login` handler (line 31 of the source). -/
def buildQuery (u p : String) : String :=
  "SELECT * FROM users WHERE username='" ++ u ++ "' AND password='" ++ p ++ "'"

/-- The Store lookup of the spec: run the concatenated query and fetch one
row. -/
def findByCredentials (rows : List UserRow) (u p : String) : Except String (Option UserRow) :=
  execQuery rows (buildQuery u p)

/-- A response body. -/
inductive Body where
  | text (s : String)
  | html (s : String)
  | jsonMessage (s : String)
  | jsonResult (s : String)
  | jsonError (s : String)
  | errorPage (s : String)
deriving DecidableEq

/-- A response: HTTP status code and body. -/
abbrev Resp := Nat × Body

/-- The `/` handler. -/
def home : Resp :=
  (200, Body.text "Vulnerable Flask App – OWASP Demo")

/-- The `/login` handler: interpolate the two form fields into the query,
execute it and fetch one row; an uncaught `sqlite3` error becomes the Flask
debug 500 page.  A found row answers 200, otherwise 401. -/
def login (rows : List UserRow) (fu fp : Option String) : Resp :=
  match execQuery rows (buildQuery (pyStr fu) (pyStr fp)) with
  | Except.error e => (500, Body.errorPage e)
  | Except.ok (some _) => (200, Body.jsonMessage "Login successful")
  | Except.ok none => (401, Body.jsonMessage "Invalid credentials")

/-- The `/ping` handler: `shell` is `os.popen(...).read()`; the command is the
fixed ping invocation with the `host` parameter (default `127.0.0.1`)
interpolated. -/
def ping (shell : String → String) (hostArg : Option String) : Resp :=
  (200, Body.html ("<pre>" ++ shell ("ping -c 1 " ++ hostArg.getD "127.0.0.1") ++ "</pre>"))

/-- The `/deserialize` handler: `b64` is `base64.b64decode`, `loads` is
`str(pickle.loads(...))` on the decoded bytes; both are modelled as
value-or-exception functions.  Any exception is caught and answered with
status 400. -/
def deserialize (b64 loads : String → Except String String) (body : String) : Resp :=
  match b64 body with
  | Except.error e => (400, Body.jsonError e)
  | Except.ok bytes =>
      match loads bytes with
      | Except.error e => (400, Body.jsonError e)
      | Except.ok s => (200, Body.jsonResult s)

/-- The `/readfile` handler: `fs` is `open(...).read()`; the `file` parameter
defaults to `/etc/passwd`; any exception is caught and answered as JSON with
the default 200 status. -/
def read_file (fs : String → Except String String) (fileArg : Option String) : Resp :=
  match fs (fileArg.getD "/etc/passwd") with
  | Except.ok content => (200, Body.html ("<pre>" ++ content ++ "</pre>"))
  | Except.error e => (200, Body.jsonError e)

/-- The hardcoded secret constant of line 7. -/
def API_KEY : String := "12345-SECRET-KEY"

/-- The database file name of line 9. -/
def DB_FILE : String := "users.db"

/-- The five exposed routes. -/
inductive Route where
  | home
  | login
  | ping
  | deserialize
  | readfile
deriving DecidableEq

/-- The relevant parts of an HTTP request. -/
structure Request where
  formUsername : Option String
  formPassword : Option String
  argHost : Option String
  argFile : Option String
  body : String

/-- The application: dispatches a request to the route's handler.  It carries
the embedded secret `apiKey`, the abstract external effects, and the current
rows of the `users` table; it returns the response together with the rows
after the request. -/
def handle (apiKey : String) (shell : String → String)
    (fs b64 loads : String → Except String String)
    (rows : List UserRow) : Route → Request → Resp × List UserRow
  | Route.home, _ => (home, rows)
  | Route.login, req => (login rows req.formUsername req.formPassword, rows)
  | Route.ping, req => (ping shell req.argHost, rows)
  | Route.deserialize, req => (deserialize b64 loads req.body, rows)
  | Route.readfile, req => (read_file fs req.argFile, rows)

/-! ### Lemmas about the lexer, the parser and the login handler -/

theorem data_append (a b : String) : (a ++ b).data = a.data ++ b.data := rfl

theorem run_instr_step {c : Char} (hc : (c == '\'') = false) (acc cs : List Char) :
    run (Mode.instr acc) (c :: cs) = run (Mode.instr (acc ++ [c])) cs := by
  simp [run, hc]

theorem run_comment_step {c : Char} (hc : (c == '\n') = false) (g : List Char) :
    run Mode.comment (c :: g) = run Mode.comment g := by
  simp [run, hc]

theorem run_instr_nq {u : List Char} (hu : '\'' ∉ u) (acc rest : List Char) :
    run (Mode.instr acc) (u ++ '\'' :: rest) = run (Mode.strend (acc ++ u)) rest := by
  induction u generalizing acc with
  | nil => simp [run]
  | cons c u ih =>
      have hne : (c == '\'') = false := by
        apply beq_eq_false_iff_ne.mpr
        intro h
        exact hu (by rw [h]; exact List.mem_cons_self _ _)
      rw [List.cons_append, run_instr_step hne]
      rw [ih (fun h => hu (List.mem_cons_of_mem c h)) (acc ++ [c])]
      simp

theorem run_comment_nonl {g : List Char} (hg : '\n' ∉ g) : run Mode.comment g = [] := by
  induction g with
  | nil => rfl
  | cons c g ih =>
      have hne : (c == '\n') = false := by
        apply beq_eq_false_iff_ne.mpr
        intro h
        exact hg (by rw [h]; exact List.mem_cons_self _ _)
      rw [run_comment_step hne]
      exact ih (fun h => hg (List.mem_cons_of_mem c h))

theorem run_strend_space (acc cs : List Char) :
    run (Mode.strend acc) (' ' :: cs) = Tok.str (String.mk acc) :: run Mode.top cs := rfl

theorem run_top_comment (cs : List Char) :
    run Mode.top ('-' :: '-' :: cs) = run Mode.comment cs := rfl

theorem run_top_header (rest : List Char) :
    run Mode.top ("SELECT * FROM users WHERE username='".data ++ rest) =
      [Tok.ident "SELECT", Tok.star, Tok.ident "FROM", Tok.ident "users", Tok.ident "WHERE",
       Tok.ident "username", Tok.eq] ++ run (Mode.instr []) rest := rfl

theorem run_top_andpwd (rest : List Char) :
    run Mode.top ("AND password='".data ++ rest) =
      [Tok.kwAnd, Tok.ident "password", Tok.eq] ++ run (Mode.instr []) rest := rfl

theorem tokenize_template (u p : String) (hu : '\'' ∉ u.data) (hp : '\'' ∉ p.data) :
    tokenize (buildQuery u p) =
      [Tok.ident "SELECT", Tok.star, Tok.ident "FROM", Tok.ident "users", Tok.ident "WHERE",
       Tok.ident "username", Tok.eq, Tok.str u, Tok.kwAnd,
       Tok.ident "password", Tok.eq, Tok.str p] := by
  have hq : (buildQuery u p).data =
      "SELECT * FROM users WHERE username='".data ++
        (u.data ++ '\'' :: (' ' :: ("AND password='".data ++ (p.data ++ '\'' :: [])))) := by
    simp only [buildQuery, data_append, List.append_assoc]
    rfl
  unfold tokenize
  rw [hq, run_top_header, run_instr_nq hu]
  rw [List.nil_append, run_strend_space, run_top_andpwd, run_instr_nq hp]
  rfl

theorem tokenize_comment (p : String) (hp : '\n' ∉ p.data) :
    tokenize (buildQuery "admin' --" p) =
      [Tok.ident "SELECT", Tok.star, Tok.ident "FROM", Tok.ident "users", Tok.ident "WHERE",
       Tok.ident "username", Tok.eq, Tok.str "admin"] := by
  have hq : (buildQuery "admin' --" p).data =
      "SELECT * FROM users WHERE username='".data ++
        ("admin".data ++ '\'' :: (' ' :: ('-' :: '-' ::
          ("' AND password='".data ++ (p.data ++ '\'' :: []))))) := by
    simp only [buildQuery, data_append, List.append_assoc]
    rfl
  have hnl : '\n' ∉ "' AND password='".data ++ (p.data ++ '\'' :: []) := by
    intro h
    rcases List.mem_append.mp h with h1 | h2
    · exact absurd h1 (by decide)
    · rcases List.mem_append.mp h2 with h3 | h4
      · exact hp h3
      · exact absurd h4 (by decide)
  unfold tokenize
  rw [hq, run_top_header, run_instr_nq (by decide : '\'' ∉ "admin".data)]
  rw [List.nil_append, run_strend_space, run_top_comment, run_comment_nonl hnl]
  rfl

theorem parse_template (u p : String) (hu : '\'' ∉ u.data) (hp : '\'' ∉ p.data) :
    parseQuery (buildQuery u p) =
      Except.ok (Cond.andc (Cond.eqc (Term.col Col.cusername) (Term.lit (Val.vstr u)))
        (Cond.eqc (Term.col Col.cpassword) (Term.lit (Val.vstr p)))) := by
  unfold parseQuery
  rw [tokenize_template u p hu hp]
  rfl

theorem execQuery_benign (rows : List UserRow) (u p : String)
    (hu : '\'' ∉ u.data) (hp : '\'' ∉ p.data) :
    execQuery rows (buildQuery u p) =
      Except.ok (firstWhere (fun r => r.username == u && r.password == p) rows) := by
  unfold execQuery
  rw [parse_template u p hu hp]
  rfl

theorem execQuery_comment (rows : List UserRow) (p : String) (hp : '\n' ∉ p.data) :
    execQuery rows (buildQuery "admin' --" p) =
      Except.ok (firstWhere (fun r => r.username == "admin") rows) := by
  unfold execQuery parseQuery
  rw [tokenize_comment p hp]
  rfl

theorem firstWhere_isSome (f : UserRow → Bool) (l : List UserRow) :
    (firstWhere f l).isSome = l.any f := by
  induction l with
  | nil => rfl
  | cons r rs ih =>
      by_cases h : f r = true
      · simp [firstWhere, List.any_cons, h]
      · simp only [Bool.not_eq_true] at h
        simp [firstWhere, List.any_cons, h, ih]

theorem login_of_exec (rows : List UserRow) (fu fp : Option String) (res : Option UserRow)
    (h : execQuery rows (buildQuery (pyStr fu) (pyStr fp)) = Except.ok res) :
    login rows fu fp =
      if res.isSome then (200, Body.jsonMessage "Login successful")
      else (401, Body.jsonMessage "Invalid credentials") := by
  unfold login
  rw [h]
  cases res <;> rfl

theorem login_benign (rows : List UserRow) (u p : String)
    (hu : '\'' ∉ u.data) (hp : '\'' ∉ p.data) :
    login rows (some u) (some p) =
      if rows.any (fun r => r.username == u && r.password == p)
      then (200, Body.jsonMessage "Login successful")
      else (401, Body.jsonMessage "Invalid credentials") := by
  rw [login_of_exec rows (some u) (some p) _ (execQuery_benign rows u p hu hp)]
  rw [firstWhere_isSome]

set_option exponentiation.threshold 2200 in
set_option maxRecDepth 8000 in
/-- Sanity check of the affinity model: the real literal `'1.0'` converts to
the double 1.0 under the INTEGER affinity of `id` and matches the row with
`id = 1`, so the injected pair bypasses the password check — as the real
program does. -/
theorem affinity_real_bypass :
    login [⟨1, "x", "y"⟩] (some "' OR id='1.0") (some "y") =
      (200, Body.jsonMessage "Login successful") := by
  rfl

set_option exponentiation.threshold 2200 in
set_option maxRecDepth 8000 in
/-- Sanity check of the affinity model: `'1.5'` converts to 1.5, which does
not equal the integer 1, so the same injection with a non-matching real
fails. -/
theorem affinity_real_mismatch :
    login [⟨1, "x", "y"⟩] (some "' OR id='1.5") (some "z") =
      (401, Body.jsonMessage "Invalid credentials") := by
  rfl


/-! ### The claims -/

/-- C1 (amended): a POST to `/login` with username `admin' --` and a password
free of newline characters turns the WHERE clause into `username='admin'`
(the rest of the template is commented out), so the handler answers the 200
success response exactly when some stored row's username is exactly `admin`
(not merely a prefix `admin`), and the 401 failure response otherwise. -/
theorem claim_c1 (rows : List UserRow) (p : String) (hp : '\n' ∉ p.data) :
    login rows (some "admin' --") (some p) =
      if rows.any (fun r => r.username == "admin")
      then (200, Body.jsonMessage "Login successful")
      else (401, Body.jsonMessage "Invalid credentials") := by
  rw [login_of_exec rows (some "admin' --") (some p) _ (execQuery_comment rows p hp)]
  rw [firstWhere_isSome]

/-- C1, witness: the bypass at a concrete table with an `admin` row and an
arbitrary wrong password. -/
theorem claim_c1_witness :
    ('\n' ∉ "guess".data)
    ∧ login [⟨1, "admin", "secret"⟩] (some "admin' --") (some "guess") =
        (if ([⟨1, "admin", "secret"⟩] : List UserRow).any (fun r => r.username == "admin")
         then (200, Body.jsonMessage "Login successful")
         else (401, Body.jsonMessage "Invalid credentials")) :=
  ⟨by decide, claim_c1 [⟨1, "admin", "secret"⟩] "guess" (by decide)⟩

/-- C1, counterexample to the claim as stated: a stored username
`administrator` starts with `admin`, yet the injected login is refused,
because the commented query tests equality with `admin`, not a prefix. -/
theorem claim_c1_cex :
    "admin".data.isPrefixOf "administrator".data = true
    ∧ login [⟨1, "administrator", "pw"⟩] (some "admin' --") (some "x") =
        (401, Body.jsonMessage "Invalid credentials") :=
  ⟨rfl, rfl⟩

/-- C3 (amended): the SQL text is always exactly the fixed template with the
two strings interpolated verbatim; and whenever neither credential contains a
single quote, the lookup returns the first row whose username and password
equal the submitted strings, or none. -/
theorem claim_c3 (u p : String) (hu : '\'' ∉ u.data) (hp : '\'' ∉ p.data) :
    buildQuery u p =
      "SELECT * FROM users WHERE username='" ++ u ++ "' AND password='" ++ p ++ "'"
    ∧ ∀ rows : List UserRow, findByCredentials rows u p =
        Except.ok (firstWhere (fun r => r.username == u && r.password == p) rows) :=
  ⟨rfl, fun rows => execQuery_benign rows u p hu hp⟩

/-- C3, witness: the template and the lookup at concrete quote-free
credentials. -/
theorem claim_c3_witness :
    ('\'' ∉ "alice".data) ∧ ('\'' ∉ "pw".data)
    ∧ findByCredentials [⟨1, "alice", "pw"⟩] "alice" "pw" =
        Except.ok (firstWhere (fun r => r.username == "alice" && r.password == "pw")
          [⟨1, "alice", "pw"⟩]) :=
  ⟨by decide, by decide, (claim_c3 "alice" "pw" (by decide) (by decide)).2 [⟨1, "alice", "pw"⟩]⟩

/-- C3, counterexample to the claim as stated: for the username `x' OR` the
lookup does not yield a first matching row or none — the malformed query
raises an error. -/
theorem claim_c3_cex :
    findByCredentials [⟨1, "admin", "password123"⟩] "x' OR" "" =
      Except.error "syntax error" :=
  rfl

/-- C4: for every request body posted to `/deserialize`, either decode and
deserialization both succeed and the response is 200 with the stringified
object as `result`, or one of them raises and the response is 400 with the
exception text as `error`; these are the only outcomes. -/
theorem claim_c4 (b64 loads : String → Except String String) (body : String) :
    (∃ bytes s, b64 body = Except.ok bytes ∧ loads bytes = Except.ok s ∧
      deserialize b64 loads body = (200, Body.jsonResult s))
    ∨ (∃ e, deserialize b64 loads body = (400, Body.jsonError e) ∧
      (b64 body = Except.error e
        ∨ ∃ bytes, b64 body = Except.ok bytes ∧ loads bytes = Except.error e)) := by
  cases hb : b64 body with
  | error e =>
      right
      exact ⟨e, by simp [deserialize, hb], Or.inl rfl⟩
  | ok bytes =>
      cases hl : loads bytes with
      | error e =>
          right
          exact ⟨e, by simp [deserialize, hb, hl], Or.inr ⟨bytes, rfl, hl⟩⟩
      | ok s =>
          left
          exact ⟨bytes, s, rfl, hl, by simp [deserialize, hb, hl]⟩

/-- C5: `/readfile` always answers status 200 — the file contents in `<pre>`
HTML when the read succeeds, and the exception text as a JSON error body
(still with status 200) when it fails. -/
theorem claim_c5 (fs : String → Except String String) (arg : Option String) :
    (read_file fs arg).1 = 200
    ∧ ((∃ content, fs (arg.getD "/etc/passwd") = Except.ok content ∧
          read_file fs arg = (200, Body.html ("<pre>" ++ content ++ "</pre>")))
      ∨ (∃ e, fs (arg.getD "/etc/passwd") = Except.error e ∧
          read_file fs arg = (200, Body.jsonError e))) := by
  cases hf : fs (arg.getD "/etc/passwd") with
  | ok content =>
      exact ⟨by simp [read_file, hf], Or.inl ⟨content, rfl, by simp [read_file, hf]⟩⟩
  | error e =>
      exact ⟨by simp [read_file, hf], Or.inr ⟨e, rfl, by simp [read_file, hf]⟩⟩

/-- C6 (amended): on every starting schema whose table names are unique and
whose `users` table, if one exists, already has the declared columns,
`init_db` is idempotent, never errors, and leaves exactly one `users` table
with the declared columns.  (SQLite's `CREATE TABLE IF NOT EXISTS` does not
compare schemas, so a pre-existing `users` table with other columns is kept
as it is.) -/
theorem claim_c6 (s : List SchemaTable)
    (hcols : ∀ t ∈ s, t.tblName = "users" → t.cols = usersColumns)
    (huniq : s.countP (fun t => t.tblName == "users") ≤ 1) :
    init_db (init_db s) = init_db s
    ∧ (init_db s).countP (fun t => t.tblName == "users") = 1
    ∧ ∀ t ∈ init_db s, t.tblName = "users" → t.cols = usersColumns := by
  by_cases h : s.any (fun t => t.tblName == "users") = true
  · have hs : init_db s = s := by simp [init_db, h]
    refine ⟨by rw [hs, hs], ?_, by rw [hs]; exact hcols⟩
    rw [hs]
    have hpos : 0 < s.countP (fun t => t.tblName == "users") := by
      rcases List.any_eq_true.mp h with ⟨t, ht, hpt⟩
      exact List.countP_pos_iff.mpr ⟨t, ht, hpt⟩
    omega
  · have h' : s.any (fun t => t.tblName == "users") = false := by
      simpa using h
    have hs : init_db s = s ++ [⟨"users", usersColumns⟩] := by simp [init_db, h']
    have ha : ((s ++ [(⟨"users", usersColumns⟩ : SchemaTable)]).any
        (fun t => t.tblName == "users")) = true := by
      rw [List.any_append]
      have hu : (([(⟨"users", usersColumns⟩ : SchemaTable)]).any
          (fun t => t.tblName == "users")) = true := rfl
      rw [hu, Bool.or_true]
    have h0 : s.countP (fun t => t.tblName == "users") = 0 := by
      rw [List.countP_eq_zero]
      intro t ht
      simpa using List.any_eq_false.mp h' t ht
    refine ⟨?_, ?_, ?_⟩
    · rw [hs]
      unfold init_db
      rw [ha]
      simp
    · rw [hs, List.countP_append, h0]
      decide
    · rw [hs]
      intro t ht hname
      rcases List.mem_append.mp ht with h1 | h2
      · exact hcols t h1 hname
      · rw [List.mem_singleton.mp h2]

/-- C6, witness: starting from the empty schema, two calls leave exactly one
`users` table. -/
theorem claim_c6_witness :
    (init_db ([] : List SchemaTable)).countP (fun t => t.tblName == "users") = 1 :=
  (claim_c6 [] (by intro t ht; exact absurd ht (List.not_mem_nil t)) (by decide)).2.1

/-- C6, counterexample to the claim as stated: a starting state whose `users`
table has different columns is left untouched by two calls — afterwards there
is no `users` table with the declared columns, against the claim's promise
for every starting database state. -/
theorem claim_c6_cex :
    init_db (init_db [SchemaTable.mk "users" [⟨"id", "INTEGER", true⟩]]) =
        [SchemaTable.mk "users" [⟨"id", "INTEGER", true⟩]]
    ∧ (init_db (init_db [SchemaTable.mk "users" [⟨"id", "INTEGER", true⟩]])).countP
        (fun t => t.tblName == "users" && decide (t.cols = usersColumns)) = 0 :=
  ⟨rfl, rfl⟩

/-- C7: no exposed route changes the rows of the `users` table: for every
route, request, and abstract external effects, the rows after handling equal
the rows before. -/
theorem claim_c7 (apiKey : String) (shell : String → String)
    (fs b64 loads : String → Except String String) (rows : List UserRow)
    (route : Route) (req : Request) :
    (handle apiKey shell fs b64 loads rows route req).2 = rows := by
  cases route <;> rfl

/-- C8: `/ping` defaults the `host` parameter to `127.0.0.1`, interpolates it
directly into the fixed ping invocation, and returns the captured output
verbatim in `<pre>` HTML with status 200. -/
theorem claim_c8 (shell : String → String) :
    ping shell none = (200, Body.html ("<pre>" ++ shell "ping -c 1 127.0.0.1" ++ "</pre>"))
    ∧ ∀ h : String, ping shell (some h) =
        (200, Body.html ("<pre>" ++ shell ("ping -c 1 " ++ h) ++ "</pre>")) :=
  ⟨rfl, fun _ => rfl⟩

/-- C9: the hardcoded secret is dead with respect to the HTTP surface: two
runs of the application that differ only in the embedded secret produce
identical responses on every route and request. -/
theorem claim_c9 (k1 k2 : String) (shell : String → String)
    (fs b64 loads : String → Except String String) (rows : List UserRow)
    (route : Route) (req : Request) :
    handle k1 shell fs b64 loads rows route req =
      handle k2 shell fs b64 loads rows route req := by
  cases route <;> rfl

/-- C10: an absent form field reaches the query as the four-character text
`None` (Python renders the `None` of `form.get` that way inside the
f-string), so the handler does not fail and the lookup proceeds as if the
missing credential were the string `None`. -/
theorem claim_c10 (rows : List UserRow) :
    pyStr none = "None"
    ∧ (∀ fp, login rows none fp = login rows (some "None") fp)
    ∧ (∀ fu, login rows fu none = login rows fu (some "None"))
    ∧ login rows none none =
        (if rows.any (fun r => r.username == "None" && r.password == "None")
         then (200, Body.jsonMessage "Login successful")
         else (401, Body.jsonMessage "Invalid credentials")) :=
  ⟨rfl, fun _ => rfl, fun _ => rfl, login_benign rows "None" "None" (by decide) (by decide)⟩


end MoreFindings
